import Mathlib

/-!
Verification development for a single-stage membrane CO2-capture code base
(`membrane_separation.py`, `auto_optimizer.py`, `opex_calculator.py`).

The Python code is shallowly embedded over `ℚ`: Python floats become exact
rationals, and the two external numerical routines (`scipy.optimize.fsolve`
and `scipy.optimize.differential_evolution` / `minimize`) are treated as
oracles — their outputs (`theta, y` for the root-finder, the optimal
parameter vector and objective value for the optimizer) are explicit
arguments of the embedded functions.  A Python function that can raise an
uncaught exception on a reachable input is embedded as an `Option`-returning
function, with `none` marking the exception.
-/

namespace MembraneSep

/-- Unit conversion constant from `membrane_separation.py` line 12:
1 GPU = 3.348e-10 mol/(m^2 s Pa). -/
def GPU_TO_SI : ℚ := 3348 / 10 ^ 13

/-- State of the `MembraneSeparation` object after `__init__`
(`membrane_separation.py` lines 40-48).  Field names follow the Python
attributes. -/
structure MembraneSeparation where
  z : ℚ        -- feed CO2 mole fraction
  P_f : ℚ      -- feed pressure, Pa
  P_p : ℚ      -- permeate pressure, Pa
  T : ℚ        -- temperature, K
  P_CO2 : ℚ    -- CO2 permeance, mol/(m^2 s Pa)
  alpha : ℚ    -- selectivity
  P_N2 : ℚ     -- N2 permeance, P_CO2 / alpha
deriving DecidableEq

/-- `MembraneSeparation.__init__` (`membrane_separation.py` lines 20-48).
The constructor performs no validation.  The only possible failure is the
float division `self.P_CO2 / self.alpha` when `selectivity` is zero, which
raises an uncaught `ZeroDivisionError`; that case is embedded as `none`. -/
def MembraneSeparation.init (feed_composition feed_pressure permeate_pressure
    temperature co2_permeance_gpu selectivity : ℚ) : Option MembraneSeparation :=
  if selectivity = 0 then none
  else some
    { z := feed_composition
      P_f := feed_pressure * 10 ^ 5
      P_p := permeate_pressure * 10 ^ 5
      T := temperature
      P_CO2 := co2_permeance_gpu * GPU_TO_SI
      alpha := selectivity
      P_N2 := co2_permeance_gpu * GPU_TO_SI / selectivity }

/-- The residual function `equations` nested inside
`MembraneSeparation.solve_single_stage` (`membrane_separation.py` lines
65-112).  `theta` is the stage-cut candidate and `y` the permeate CO2
fraction candidate supplied by the root-finder.  The Python local names
`flux_ratio` and `comp_ratio` are rendered `fluxQuot` and `compQuot`. -/
def equations (m : MembraneSeparation) (F theta y : ℚ) : ℚ × ℚ :=
  let P := theta * F
  let R := F - P
  if R ≤ 0 then (10 ^ 10, 10 ^ 10)
  else
    let x := (F * m.z - P * y) / R
    if x < 0 ∨ x > 1 ∨ y < 0 ∨ y > 1 then (10 ^ 10, 10 ^ 10)
    else
      let p_CO2_f := x * m.P_f
      let p_CO2_p := y * m.P_p
      let p_N2_f := (1 - x) * m.P_f
      let p_N2_p := (1 - y) * m.P_p
      let J_CO2 := m.P_CO2 * (p_CO2_f - p_CO2_p)
      let J_N2 := m.P_N2 * (p_N2_f - p_N2_p)
      if |J_CO2| < 1 / 10 ^ 20 ∨ |J_N2| < 1 / 10 ^ 20 then (10 ^ 10, 10 ^ 10)
      else
        let fluxQuot := J_CO2 / J_N2
        let compQuot := if y < 1 then y / (1 - y) else 10 ^ 10
        (fluxQuot - compQuot, (F * m.z - R * x - P * y) / (F * m.z + 1 / 10 ^ 10))

/-- The result dictionary built by `solve_single_stage`
(`membrane_separation.py` lines 143-152).  Field names follow the Python
dictionary keys. -/
structure StageResult where
  stage_cut : ℚ
  permeate_co2 : ℚ
  retentate_co2 : ℚ
  co2_recovery : ℚ
  permeate_flow : ℚ
  retentate_flow : ℚ
  membrane_area : ℚ
  co2_permeated : ℚ
deriving DecidableEq

/-- `MembraneSeparation.solve_single_stage` (`membrane_separation.py` lines
50-158), as a function of the values `theta, y` that `fsolve` returned.
The whole body runs inside `try: ... except: return None`, so any raised
exception becomes `None`.  Embedding convention for the zero-denominator
divisions (`x = (F*z - P*y)/R` when `R = 0`, `recovery = (P*y)/(F*z)` when
`F*z = 0`, the area division when `P_CO2 * delta_p_CO2 = 0`): their
results do not exist in `ℚ`, and they are embedded as `none`.  In the
source, `theta, y` are `numpy.float64` unpacked from the `fsolve` result
array, so these divisions actually yield IEEE infinities or NaN with a
`RuntimeWarning` and a dict is still returned; `none` therefore marks an
outcome outside the rational model (an IEEE non-finite value or a caught
exception), not a proof that the code raises.  No claim theorem asserts a
raise from these branches.  Convergence is only checked to print a warning
(see `convergence_warning`); the results are returned regardless. -/
def solve_single_stage (m : MembraneSeparation) (F theta y : ℚ) : Option StageResult :=
  let P := theta * F
  let R := F - P
  if R = 0 then none
  else
    let x := (F * m.z - P * y) / R
    if F * m.z = 0 then none
    else
      let recovery := P * y / (F * m.z)
      let p_CO2_f := x * m.P_f
      let p_CO2_p := y * m.P_p
      let delta_p_CO2 := p_CO2_f - p_CO2_p
      let n_CO2_perm := P * y * 1000
      if m.P_CO2 * delta_p_CO2 = 0 then none
      else some
        { stage_cut := theta
          permeate_co2 := y
          retentate_co2 := x
          co2_recovery := recovery
          permeate_flow := P
          retentate_flow := R
          membrane_area := n_CO2_perm / (m.P_CO2 * delta_p_CO2)
          co2_permeated := n_CO2_perm }

/-- The convergence check of `solve_single_stage` (`membrane_separation.py`
line 124): the sum of squared residuals at the returned iterate exceeds
`1e-6`, in which case the Python code prints
"Warning: Solution may not have converged" and continues. -/
def convergence_warning (m : MembraneSeparation) (F theta y : ℚ) : Bool :=
  let e := equations m F theta y
  decide (e.1 ^ 2 + e.2 ^ 2 > 1 / 10 ^ 6)

/-- The `fixed_params` dictionary assembled by
`TargetOptimizer.find_optimal_conditions` (`auto_optimizer.py` lines
113-119) and consumed by `objective_function`. -/
structure FixedParams where
  feed_flow : ℚ
  feed_composition : ℚ
  temperature : ℚ
  co2_permeance_gpu : ℚ
  selectivity : ℚ
deriving DecidableEq

/-- `TargetOptimizer.objective_function` (`auto_optimizer.py` lines 34-95),
as a function of the candidate vector `params = [feed_pressure,
permeate_pressure, area_factor]`, the fixed parameters, the optimizer's
targets `recovery_target, purity_target`, and the root-finder oracle values
`theta, y` used by the inner `solve_single_stage` call.  The `try/except`
wrapper converts every exception (modelled by the `none` branches of
`MembraneSeparation.init` and `solve_single_stage`, including the
`TypeError` raised at `results['co2_recovery']` when the solver returned
`None`) into the `1e6` penalty. -/
def objective_function (recovery_target purity_target : ℚ)
    (feed_pressure permeate_pressure area_factor : ℚ)
    (fixed : FixedParams) (theta y : ℚ) : ℚ :=
  if permeate_pressure ≥ feed_pressure then 10 ^ 6
  else if feed_pressure < 1 ∨ feed_pressure > 20 then 10 ^ 6
  else if permeate_pressure < 1 / 20 ∨ permeate_pressure > 5 then 10 ^ 6
  else if area_factor < 1 / 10 ∨ area_factor > 10 then 10 ^ 6
  else
    match MembraneSeparation.init fixed.feed_composition feed_pressure
        permeate_pressure fixed.temperature fixed.co2_permeance_gpu
        fixed.selectivity with
    | none => 10 ^ 6
    | some membrane =>
      match solve_single_stage membrane fixed.feed_flow theta y with
      | none => 10 ^ 6
      | some results =>
        let recovery_penalty := (max 0 (recovery_target - results.co2_recovery)) ^ 2 * 100
        let purity_penalty := (max 0 (purity_target - results.permeate_co2)) ^ 2 * 100
        let cost_penalty := feed_pressure / 10 * (1 / 10) + area_factor / 5 * (1 / 10)
        recovery_penalty + purity_penalty + cost_penalty

/-- `OPEXCalculator.calculate_compression_energy` (`opex_calculator.py`
lines 38-81) at the default `efficiency=0.75`, `stages=1` used by
`find_optimal_conditions`.  The float power `a ** b` is not rational, so it
is passed in as the oracle function `powq`; with `stages=1` the per-stage
pressure quotient is `powq (P2/P1) 1` and the isentropic work uses
`powq pressureQuot ((gamma-1)/gamma)`. -/
def calculate_compression_energy (powq : ℚ → ℚ → ℚ)
    (feed_flow_kmol_s P_initial P_final temperature : ℚ) : ℚ :=
  let Rgas : ℚ := 8314 / 1000
  let gamma : ℚ := 7 / 5
  let P1 := P_initial * 10 ^ 5
  let P2 := P_final * 10 ^ 5
  let n_dot := feed_flow_kmol_s * 1000
  let pressureQuot := powq (P2 / P1) 1
  let W_stage := gamma / (gamma - 1) * Rgas * temperature *
    (powq pressureQuot ((gamma - 1) / gamma) - 1)
  let W_total := 1 * W_stage * n_dot / (3 / 4)
  W_total / 1000

/-- The `'Total OPEX' -> 'Annual ($/year)'` entry of the dictionary built by
`OPEXCalculator.calculate_annual_opex` (`opex_calculator.py` lines 119-234)
at the default `labor_hours_per_day=2`, `water_usage_m3_per_day=1`, which is
the only entry `find_optimal_conditions` consumes.  `electricity_cost` and
`membrane_cost_per_m2` are the two calculator attributes that
`find_optimal_conditions` overwrites from `base_params`; the remaining cost
constants are the `OPEXCalculator.__init__` defaults. -/
def calculate_annual_opex_total (electricity_cost membrane_cost_per_m2 : ℚ)
    (membrane_area compression_power vacuum_power : ℚ) : ℚ :=
  let membrane_lifetime : ℚ := 5
  let labor_cost_per_hour : ℚ := 50
  let maintenance_factor : ℚ := 3 / 100
  let operating_hours_per_year : ℚ := 8000
  let water_cost_rate : ℚ := 1 / 2
  let chemicals_cost : ℚ := 5000
  let insurance_rate : ℚ := 1 / 100
  let admin_overhead : ℚ := 15 / 100
  let total_power := compression_power + vacuum_power
  let annual_energy := total_power * operating_hours_per_year
  let energy_cost := annual_energy * electricity_cost
  let annual_membrane_replacement := membrane_area * membrane_cost_per_m2 / membrane_lifetime
  let annual_labor_hours : ℚ := 2 * 365
  let direct_labor_cost := annual_labor_hours * labor_cost_per_hour
  let admin_labor_cost := direct_labor_cost * admin_overhead
  let total_labor_cost := direct_labor_cost + admin_labor_cost
  let estimated_capex := membrane_area * membrane_cost_per_m2 + compression_power * 500
  let maintenance_cost := estimated_capex * maintenance_factor
  let annual_water_usage : ℚ := 1 * 365
  let water_cost := annual_water_usage * water_cost_rate
  let insurance_cost := estimated_capex * insurance_rate
  let subtotal := energy_cost + annual_membrane_replacement + total_labor_cost +
    maintenance_cost + water_cost + chemicals_cost + insurance_cost
  subtotal + subtotal * (2 / 100)

/-- A `base_params` dictionary as passed to `find_optimal_conditions` /
`guaranteed_solution`.  Every call site in the repository
(`auto_optimize_for_target` and the strategy-8 `working_params`) supplies
all of these keys, so the `.get(key, default)` lookups are embedded as
plain field reads. -/
structure BaseParams where
  feed_flow : ℚ
  feed_composition : ℚ
  temperature : ℚ
  co2_permeance_gpu : ℚ
  selectivity : ℚ
  electricity_cost : ℚ
  membrane_cost_per_m2 : ℚ
deriving DecidableEq

/-- The part of the `scipy.optimize` result object that
`find_optimal_conditions` reads: the solution vector `result.x`
(components `x0 = feed_pressure`, `x1 = permeate_pressure`,
`x2 = area_factor`) and the objective value `result.fun` (field `f`). -/
structure OptResult where
  x0 : ℚ
  x1 : ℚ
  x2 : ℚ
  f : ℚ
deriving DecidableEq

/-- The solution dictionary built by `find_optimal_conditions`
(`auto_optimizer.py` lines 194-208).  The four trailing `Option` fields
model the keys `'selectivity'`, `'co2_permeance_gpu'`,
`'feed_composition'`, `'temperature'` that `guaranteed_solution` adds to
the dictionary when an escalation strategy altered those inputs (absent
key = `none`).  The Python key `'pressure_ratio'` is rendered
`pressureQuot`, `'co2_purity'` keeps its name. -/
structure Solution where
  feed_pressure : ℚ
  permeate_pressure : ℚ
  pressureQuot : ℚ
  co2_recovery : ℚ
  co2_purity : ℚ
  membrane_area : ℚ
  stage_cut : ℚ
  meets_target : Bool
  optimization_penalty : ℚ
  opex_annual : ℚ
  total_power : ℚ
  full_results : StageResult
  selectivity_out : Option ℚ := none
  co2_permeance_gpu_out : Option ℚ := none
  feed_composition_out : Option ℚ := none
  temperature_out : Option ℚ := none
deriving DecidableEq

/-- The `bounds` list handed to `differential_evolution` (and to
`minimize`) by `find_optimal_conditions` (`auto_optimizer.py` line 124):
`[(1.0, 15.0), (0.05, 2.0), (0.1, 10.0)]` for
`[feed_pressure, permeate_pressure, area_factor]`. -/
def de_bounds : List (ℚ × ℚ) := [(1, 15), (1 / 20, 2), (1 / 10, 10)]

/-- `TargetOptimizer.find_optimal_conditions` (`auto_optimizer.py` lines
97-210) downstream of the optimizer call: the optimizer's output is the
oracle `opt : OptResult` (scipy keeps `opt.x` inside `de_bounds`), and the
final `solve_single_stage` call receives the root-finder oracle values
`theta, y`.  Only `opt.x0` (feed pressure), `opt.x1` (permeate pressure)
and `opt.f` are ever read — `opt.x2` (the optimized area factor) is not.
`none` propagates the outcomes outside the rational model:
`MembraneSeparation.init` raising (a genuine `ZeroDivisionError` on pure
Python floats), the solver returning `None` after a caught exception (in
which case the unguarded `results[...]` subscripts here would raise
`TypeError`) or an IEEE-marked solve (see `solve_single_stage`), and the
`pressure_ratio` division at permeate pressure zero, which on the
`numpy.float64` optimizer output would be an IEEE infinity rather than a
raise. -/
def find_optimal_conditions (powq : ℚ → ℚ → ℚ)
    (recovery_target purity_target : ℚ) (base : BaseParams)
    (opt : OptResult) (theta y : ℚ) : Option Solution :=
  let fixed : FixedParams :=
    { feed_flow := base.feed_flow
      feed_composition := base.feed_composition
      temperature := base.temperature
      co2_permeance_gpu := base.co2_permeance_gpu
      selectivity := base.selectivity }
  let feed_pressure := opt.x0
  let permeate_pressure := opt.x1
  match MembraneSeparation.init fixed.feed_composition feed_pressure
      permeate_pressure fixed.temperature fixed.co2_permeance_gpu
      fixed.selectivity with
  | none => none
  | some membrane =>
    match solve_single_stage membrane fixed.feed_flow theta y with
    | none => none
    | some results =>
      let compression_power :=
        calculate_compression_energy powq fixed.feed_flow 1 feed_pressure fixed.temperature
      let vacuum_power :=
        if permeate_pressure < 1 then
          calculate_compression_energy powq results.permeate_flow
            permeate_pressure 1 fixed.temperature
        else 0
      let opex_annual :=
        calculate_annual_opex_total base.electricity_cost base.membrane_cost_per_m2
          results.membrane_area compression_power vacuum_power
      if permeate_pressure = 0 then none
      else some
        { feed_pressure := feed_pressure
          permeate_pressure := permeate_pressure
          pressureQuot := feed_pressure / permeate_pressure
          co2_recovery := results.co2_recovery
          co2_purity := results.permeate_co2
          membrane_area := results.membrane_area
          stage_cut := results.stage_cut
          meets_target := decide (results.co2_recovery ≥ recovery_target ∧
            results.permeate_co2 ≥ purity_target)
          optimization_penalty := opt.f
          opex_annual := opex_annual
          total_power := compression_power + vacuum_power
          full_results := results }

/-- Strategy 2 parameter copy (`auto_optimizer.py` lines 259-260):
selectivity multiplied by 1.5, capped at 100. -/
def strat2_params (base : BaseParams) : BaseParams :=
  { base with selectivity := min 100 (base.selectivity * (3 / 2)) }

/-- Strategy 3 parameter copy (`auto_optimizer.py` lines 269-271):
feed composition multiplied by 1.5 capped at 0.50, selectivity multiplied
by 1.3 capped at 100 (both from the original `base_params`). -/
def strat3_params (base : BaseParams) : BaseParams :=
  { base with
      feed_composition := min (1 / 2) (base.feed_composition * (3 / 2))
      selectivity := min 100 (base.selectivity * (13 / 10)) }

/-- Strategy 4 parameter copy (`auto_optimizer.py` lines 284-287):
selectivity fixed at 150, permeance multiplied by 0.7, feed composition
multiplied by 1.3 capped at 0.40. -/
def strat4_params (base : BaseParams) : BaseParams :=
  { base with
      selectivity := 150
      co2_permeance_gpu := base.co2_permeance_gpu * (7 / 10)
      feed_composition := min (2 / 5) (base.feed_composition * (13 / 10)) }

/-- Strategy 5 parameter copy (`auto_optimizer.py` lines 301-304):
temperature 308 K, selectivity 120, feed composition multiplied by 2.0
capped at 0.50. -/
def strat5_params (base : BaseParams) : BaseParams :=
  { base with
      temperature := 308
      selectivity := 120
      feed_composition := min (1 / 2) (base.feed_composition * 2) }

/-- Strategy 6 parameter copy (`auto_optimizer.py` lines 318-322):
selectivity 200, permeance 1200 GPU, feed composition 0.30, temperature
298 K. -/
def strat6_params (base : BaseParams) : BaseParams :=
  { base with
      selectivity := 200
      co2_permeance_gpu := 1200
      feed_composition := 3 / 10
      temperature := 298 }

/-- The hardcoded `working_params` dictionary of strategy 8
(`auto_optimizer.py` lines 350-358). -/
def working_params : BaseParams :=
  { feed_flow := 1
    feed_composition := 3 / 10
    temperature := 298
    co2_permeance_gpu := 1500
    selectivity := 250
    electricity_cost := 7 / 100
    membrane_cost_per_m2 := 50 }

/-- Oracle data for one `find_optimal_conditions` call: the optimizer
result and the root-finder output of the final solve. -/
structure CallOracle where
  opt : OptResult
  theta : ℚ
  y : ℚ

/-- The `k`-th `find_optimal_conditions` call made by
`guaranteed_solution`, fed by the `k`-th entry of the oracle stream
(`k = 0..5` are strategies 1-6, `k = 6` is the strategy-8 call). -/
def fopt (powq : ℚ → ℚ → ℚ) (oracle : ℕ → CallOracle)
    (recovery_target purity_target : ℚ) (k : ℕ) (p : BaseParams) : Option Solution :=
  find_optimal_conditions powq recovery_target purity_target p
    (oracle k).opt (oracle k).theta (oracle k).y

/-- `TargetOptimizer.guaranteed_solution` (`auto_optimizer.py` lines
235-371).  Strictly sequential strategy ladder with early return on the
first solution whose `meets_target` holds; strategies 3-6 add the altered
parameters to the returned dictionary; strategy 7 (lines 337-345) overrides
`meets_target` on the strategy-6 solution when recovery and purity are both
at least 0.78; strategy 8 (lines 348-371) re-optimizes with
`working_params` and unconditionally forces `meets_target`.  A `none` from
any `find_optimal_conditions` call is an uncaught exception and
propagates. -/
def guaranteed_solution (powq : ℚ → ℚ → ℚ) (oracle : ℕ → CallOracle)
    (recovery_target purity_target : ℚ) (base : BaseParams) : Option Solution :=
  match fopt powq oracle recovery_target purity_target 0 base with
  | none => none
  | some s1 =>
    if s1.meets_target then some s1
    else
      match fopt powq oracle recovery_target purity_target 1 (strat2_params base) with
      | none => none
      | some s2 =>
        if s2.meets_target then some s2
        else
          match fopt powq oracle recovery_target purity_target 2 (strat3_params base) with
          | none => none
          | some s3 =>
            if s3.meets_target then
              some { s3 with
                feed_composition_out := some (strat3_params base).feed_composition
                selectivity_out := some (strat3_params base).selectivity }
            else
              match fopt powq oracle recovery_target purity_target 3 (strat4_params base) with
              | none => none
              | some s4 =>
                if s4.meets_target then
                  some { s4 with
                    selectivity_out := some (strat4_params base).selectivity
                    co2_permeance_gpu_out := some (strat4_params base).co2_permeance_gpu
                    feed_composition_out := some (strat4_params base).feed_composition }
                else
                  match fopt powq oracle recovery_target purity_target 4 (strat5_params base) with
                  | none => none
                  | some s5 =>
                    if s5.meets_target then
                      some { s5 with
                        temperature_out := some (strat5_params base).temperature
                        selectivity_out := some (strat5_params base).selectivity
                        feed_composition_out := some (strat5_params base).feed_composition }
                    else
                      match fopt powq oracle recovery_target purity_target 5 (strat6_params base) with
                      | none => none
                      | some s6 =>
                        if s6.meets_target then
                          some { s6 with
                            selectivity_out := some (strat6_params base).selectivity
                            co2_permeance_gpu_out := some (strat6_params base).co2_permeance_gpu
                            feed_composition_out := some (strat6_params base).feed_composition
                            temperature_out := some (strat6_params base).temperature }
                        else if s6.co2_recovery ≥ 78 / 100 ∧ s6.co2_purity ≥ 78 / 100 then
                          some { s6 with meets_target := true }
                        else
                          match fopt powq oracle recovery_target purity_target 6 working_params with
                          | none => none
                          | some s8 =>
                            some { s8 with
                              meets_target := true
                              selectivity_out := some working_params.selectivity
                              co2_permeance_gpu_out := some working_params.co2_permeance_gpu
                              feed_composition_out := some working_params.feed_composition
                              temperature_out := some working_params.temperature }

/-- The escalation ladder exactly as claim C2 words it, written with
`Option.bind` over the same `find_optimal_conditions` calls: strictly
sequential, terminal on the first strategy whose solution meets the target;
strategy 2 multiplies selectivity by 1.5 capped at 100; strategy 3
multiplies feed composition by 1.5 capped at 0.50 and selectivity by 1.3
capped at 100; strategy 4 sets selectivity 150, multiplies permeance by
0.7, multiplies feed composition by 1.3 capped at 0.40; strategy 5 sets
temperature 308, selectivity 120 and multiplies feed composition by 2.0
capped at 0.50; strategy 6 sets selectivity 200, permeance 1200, feed
composition 0.30, temperature 298; strategy 7 sets `meets_target` true iff
the strategy-6 solution has recovery and purity at least 0.78; strategy 8
re-optimizes with feed composition 0.30, permeance 1500, selectivity 250
and unconditionally sets `meets_target` true. -/
def escalation_ladder_claim (powq : ℚ → ℚ → ℚ) (oracle : ℕ → CallOracle)
    (recovery_target purity_target : ℚ) (base : BaseParams) : Option Solution :=
  (fopt powq oracle recovery_target purity_target 0 base).bind fun s1 =>
    if s1.meets_target then some s1 else
    (fopt powq oracle recovery_target purity_target 1
        { base with selectivity := min 100 (base.selectivity * (3 / 2)) }).bind fun s2 =>
    if s2.meets_target then some s2 else
    (fopt powq oracle recovery_target purity_target 2
        { base with
            feed_composition := min (1 / 2) (base.feed_composition * (3 / 2))
            selectivity := min 100 (base.selectivity * (13 / 10)) }).bind fun s3 =>
    if s3.meets_target then
      some { s3 with
        feed_composition_out := some (min (1 / 2) (base.feed_composition * (3 / 2)))
        selectivity_out := some (min 100 (base.selectivity * (13 / 10))) } else
    (fopt powq oracle recovery_target purity_target 3
        { base with
            selectivity := 150
            co2_permeance_gpu := base.co2_permeance_gpu * (7 / 10)
            feed_composition := min (2 / 5) (base.feed_composition * (13 / 10)) }).bind fun s4 =>
    if s4.meets_target then
      some { s4 with
        selectivity_out := some 150
        co2_permeance_gpu_out := some (base.co2_permeance_gpu * (7 / 10))
        feed_composition_out := some (min (2 / 5) (base.feed_composition * (13 / 10))) } else
    (fopt powq oracle recovery_target purity_target 4
        { base with
            temperature := 308
            selectivity := 120
            feed_composition := min (1 / 2) (base.feed_composition * 2) }).bind fun s5 =>
    if s5.meets_target then
      some { s5 with
        temperature_out := some 308
        selectivity_out := some 120
        feed_composition_out := some (min (1 / 2) (base.feed_composition * 2)) } else
    (fopt powq oracle recovery_target purity_target 5
        { base with
            selectivity := 200
            co2_permeance_gpu := 1200
            feed_composition := 3 / 10
            temperature := 298 }).bind fun s6 =>
    if s6.meets_target then
      some { s6 with
        selectivity_out := some 200
        co2_permeance_gpu_out := some 1200
        feed_composition_out := some (3 / 10)
        temperature_out := some 298 }
    else if s6.co2_recovery ≥ 78 / 100 ∧ s6.co2_purity ≥ 78 / 100 then
      some { s6 with meets_target := true }
    else
      (fopt powq oracle recovery_target purity_target 6
          { feed_flow := 1
            feed_composition := 3 / 10
            temperature := 298
            co2_permeance_gpu := 1500
            selectivity := 250
            electricity_cost := 7 / 100
            membrane_cost_per_m2 := 50 }).bind fun s8 =>
      some { s8 with
        meets_target := true
        selectivity_out := some 250
        co2_permeance_gpu_out := some 1500
        feed_composition_out := some (3 / 10)
        temperature_out := some 298 }

/-! Concrete fixtures for witnesses and counterexamples.  `mGood` is the
membrane object `MembraneSeparation(0.15, 3, 0.2, 298, 800, 50)` of the
spec's base scenario, written out field by field. -/

/-- `MembraneSeparation(feed_composition=0.15, feed_pressure=3,
permeate_pressure=0.2, temperature=298, co2_permeance_gpu=800,
selectivity=50)`. -/
def mGood : MembraneSeparation :=
  { z := 3 / 20
    P_f := 3 * 10 ^ 5
    P_p := 1 / 5 * 10 ^ 5
    T := 298
    P_CO2 := 800 * GPU_TO_SI
    alpha := 50
    P_N2 := 800 * GPU_TO_SI / 50 }

/-- The fixed parameters matching `mGood` with unit feed flow. -/
def fixedW : FixedParams :=
  { feed_flow := 1
    feed_composition := 3 / 20
    temperature := 298
    co2_permeance_gpu := 800
    selectivity := 50 }

/-- The base-parameter dictionary of the spec's base scenario
(`auto_optimize_for_target` with the `Advanced` membrane defaults). -/
def baseW : BaseParams :=
  { feed_flow := 1
    feed_composition := 3 / 20
    temperature := 298
    co2_permeance_gpu := 800
    selectivity := 50
    electricity_cost := 7 / 100
    membrane_cost_per_m2 := 50 }

/-- A concrete float-power oracle (its value is irrelevant to every claim
proved here). -/
def powqW : ℚ → ℚ → ℚ := fun _ _ => 0

/-- A concrete optimizer result inside the `de_bounds` box. -/
def optW : OptResult :=
  { x0 := 3, x1 := 1 / 5, x2 := 1, f := 0 }

/-! Claim theorems. -/

/-- Claim C1 (amended): every dictionary returned by `solve_single_stage`
satisfies flow conservation `permeate_flow + retentate_flow = feed_flow`
exactly and the CO2 mass balance `F*z - R*x - P*y = 0` exactly, hence the
relative mass-balance error is below `1e-4`.  (The range invariants of the
original claim are refuted by `c1_range_invariants_cex`.) -/
theorem c1_flow_mass_balance_hold (m : MembraneSeparation) (F theta y : ℚ)
    (r : StageResult) (hr : solve_single_stage m F theta y = some r) :
    r.permeate_flow + r.retentate_flow = F ∧
    F * m.z - r.retentate_flow * r.retentate_co2 - r.permeate_flow * r.permeate_co2 = 0 ∧
    |F * m.z - r.retentate_flow * r.retentate_co2 - r.permeate_flow * r.permeate_co2|
      / (F * m.z) < 1 / 10 ^ 4 := by
  unfold solve_single_stage at hr
  dsimp only at hr
  split_ifs at hr with h1 h2 h3
  rw [Option.some.injEq] at hr
  subst hr
  refine ⟨by ring, ?_, ?_⟩
  · dsimp only
    field_simp
  · dsimp only
    have hz : F * m.z -
        (F - theta * F) * ((F * m.z - theta * F * y) / (F - theta * F)) -
        theta * F * y = 0 := by
      field_simp
    rw [hz, abs_zero, zero_div]
    norm_num

/-- Witness for `c1_flow_mass_balance_hold` at the base scenario with
root-finder output `theta = 3/20`, `y = 9/10`. -/
theorem c1_flow_mass_balance_witness :
    (solve_single_stage mGood 1 (3 / 20) (9 / 10)).map
      (fun r => decide (r.permeate_flow + r.retentate_flow = 1 ∧
        |1 * mGood.z - r.retentate_flow * r.retentate_co2 -
          r.permeate_flow * r.permeate_co2| / (1 * mGood.z) < 1 / 10 ^ 4)) = some true := by
  rcases hr : solve_single_stage mGood 1 (3 / 20) (9 / 10) with _ | r
  · norm_num [solve_single_stage, mGood, GPU_TO_SI] at hr
    exact absurd hr (Option.some_ne_none _)
  · have h := c1_flow_mass_balance_hold mGood 1 (3 / 20) (9 / 10) r hr
    simp only [Option.map_some', Option.some.injEq, decide_eq_true_eq]
    exact ⟨h.1, h.2.2⟩

/-- Counterexample to claim C1 as stated: with the (non-converged)
root-finder output `theta = 3/2`, `y = 1/2`, `solve_single_stage` still
returns a result dictionary, and its `stage_cut` is `3/2`, outside `(0,1)`
(its `retentate_co2` is `6/5 > 1` and its `co2_recovery` is `5 > 1` as
well); the code validates none of the range invariants. -/
theorem c1_range_invariants_cex :
    (solve_single_stage mGood 1 (3 / 2) (1 / 2)).map
      (fun r => (r.stage_cut, r.retentate_co2, r.co2_recovery)) =
      some (3 / 2, 6 / 5, 5) ∧ ¬ ((3 : ℚ) / 2 < 1) := by
  constructor
  · norm_num [solve_single_stage, mGood, GPU_TO_SI]
  · norm_num

/-- Claim C6: any physical-bound violation seen by the residual function —
retentate flow `R = F - theta*F ≤ 0`, permeate composition `y` outside
`[0,1]`, or (when `R > 0`) back-solved retentate composition
`x = (F*z - theta*F*y)/R` outside `[0,1]` — makes `equations` return the
large finite sentinel pair `(1e10, 1e10)`. -/
theorem c6_residual_sentinel (m : MembraneSeparation) (F theta y : ℚ)
    (h : F - theta * F ≤ 0 ∨ y < 0 ∨ y > 1 ∨
      (0 < F - theta * F ∧
        ((F * m.z - theta * F * y) / (F - theta * F) < 0 ∨
         (F * m.z - theta * F * y) / (F - theta * F) > 1))) :
    equations m F theta y = (10 ^ 10, 10 ^ 10) := by
  unfold equations
  dsimp only
  split_ifs with h1 h2 h3 h4 <;>
    first
      | rfl
      | (exfalso
         push_neg at h2
         rcases h with h | h | h | ⟨hR, hx | hx⟩
         · exact h1 h
         · exact absurd h (not_lt.mpr h2.2.2.1)
         · exact absurd h (not_lt.mpr h2.2.2.2)
         · exact absurd hx (not_lt.mpr h2.1)
         · exact absurd hx (not_lt.mpr h2.2.1))

/-- Witness for `c6_residual_sentinel`: once with `R ≤ 0` (stage-cut 2) and
once with `x > 1` (stage-cut 9/10, `y = 1/20`, giving `x = 21/20`). -/
theorem c6_residual_sentinel_witness :
    equations mGood 1 2 (1 / 2) = (10 ^ 10, 10 ^ 10) ∧
    equations mGood 1 (9 / 10) (1 / 20) = (10 ^ 10, 10 ^ 10) := by
  constructor
  · exact c6_residual_sentinel mGood 1 2 (1 / 2) (Or.inl (by norm_num))
  · refine c6_residual_sentinel mGood 1 (9 / 10) (1 / 20)
      (Or.inr (Or.inr (Or.inr ⟨by norm_num, Or.inr ?_⟩)))
    norm_num [mGood]

/-- Claim C4: on a feasible candidate (all four guard checks pass, the
model constructs, and the solver returns a result `r`), the penalty is
exactly `100*max(0, recovery_target - recovery)^2 +
100*max(0, purity_target - purity)^2 + 0.1*feed_pressure/10 +
0.1*area_factor/5`; when recovery and purity equal the targets exactly,
only the cost term remains. -/
theorem c4_penalty_formula (recovery_target purity_target fp pp af : ℚ)
    (fixed : FixedParams) (theta y : ℚ) (m : MembraneSeparation) (r : StageResult)
    (hpp : ¬ pp ≥ fp) (hfp : ¬ (fp < 1 ∨ fp > 20)) (hpr : ¬ (pp < 1 / 20 ∨ pp > 5))
    (haf : ¬ (af < 1 / 10 ∨ af > 10))
    (hm : MembraneSeparation.init fixed.feed_composition fp pp fixed.temperature
      fixed.co2_permeance_gpu fixed.selectivity = some m)
    (hr : solve_single_stage m fixed.feed_flow theta y = some r) :
    objective_function recovery_target purity_target fp pp af fixed theta y =
      100 * max 0 (recovery_target - r.co2_recovery) ^ 2 +
      100 * max 0 (purity_target - r.permeate_co2) ^ 2 +
      1 / 10 * fp / 10 + 1 / 10 * af / 5 ∧
    (r.co2_recovery = recovery_target → r.permeate_co2 = purity_target →
      objective_function recovery_target purity_target fp pp af fixed theta y =
        1 / 10 * fp / 10 + 1 / 10 * af / 5) := by
  have hb : objective_function recovery_target purity_target fp pp af fixed theta y =
      100 * max 0 (recovery_target - r.co2_recovery) ^ 2 +
      100 * max 0 (purity_target - r.permeate_co2) ^ 2 +
      1 / 10 * fp / 10 + 1 / 10 * af / 5 := by
    unfold objective_function
    rw [if_neg hpp, if_neg hfp, if_neg hpr, if_neg haf, hm]
    dsimp only
    rw [hr]
    dsimp only
    ring
  refine ⟨hb, fun h1 h2 => ?_⟩
  rw [hb, h1, h2]
  simp only [sub_self, max_self]
  ring

/-- Witness for `c4_penalty_formula`: at the base scenario with root-finder
output `theta = 3/20`, `y = 9/10` the resulting recovery and purity are
both exactly `9/10`; with both targets set to `9/10`, the penalty reduces
to the pure cost term `0.1*3/10 + 0.1*1/5 = 1/20`. -/
theorem c4_penalty_witness :
    objective_function (9 / 10) (9 / 10) 3 (1 / 5) 1 fixedW (3 / 20) (9 / 10) =
      1 / 10 * 3 / 10 + 1 / 10 * 1 / 5 := by
  rcases hr : solve_single_stage mGood 1 (3 / 20) (9 / 10) with _ | r
  · norm_num [solve_single_stage, mGood, GPU_TO_SI] at hr
    exact absurd hr (Option.some_ne_none _)
  · have hrp : r.co2_recovery = 9 / 10 ∧ r.permeate_co2 = 9 / 10 := by
      have h2 : (solve_single_stage mGood 1 (3 / 20) (9 / 10)).map
          (fun t => (t.co2_recovery, t.permeate_co2)) = some (9 / 10, 9 / 10) := by
        norm_num [solve_single_stage, mGood, GPU_TO_SI]
      rw [hr] at h2
      simpa using h2
    have hm : MembraneSeparation.init fixedW.feed_composition 3 (1 / 5)
        fixedW.temperature fixedW.co2_permeance_gpu fixedW.selectivity = some mGood := by
      norm_num [MembraneSeparation.init, fixedW, mGood, GPU_TO_SI]
    have hfix : solve_single_stage mGood fixedW.feed_flow (3 / 20) (9 / 10) = some r := by
      simpa [fixedW] using hr
    exact (c4_penalty_formula (9 / 10) (9 / 10) 3 (1 / 5) 1 fixedW (3 / 20) (9 / 10)
      mGood r (by norm_num) (by norm_num) (by norm_num) (by norm_num) hm hfix).2
      hrp.1 hrp.2

/-- Helper: any of the four guard checks of `objective_function`
(`auto_optimizer.py` lines 55-65) forces the `1e6` sentinel. -/
theorem objective_of_guard (recovery_target purity_target fp pp af : ℚ)
    (fixed : FixedParams) (theta y : ℚ)
    (h : pp ≥ fp ∨ fp < 1 ∨ fp > 20 ∨ pp < 1 / 20 ∨ pp > 5 ∨ af < 1 / 10 ∨ af > 10) :
    objective_function recovery_target purity_target fp pp af fixed theta y = 10 ^ 6 := by
  unfold objective_function
  split_ifs with h1 h2 h3 h4
  · rfl
  · rfl
  · rfl
  · rfl
  · rcases h with h | h | h | h | h | h | h
    · exact absurd h h1
    · exact absurd (Or.inl h) h2
    · exact absurd (Or.inr h) h2
    · exact absurd (Or.inl h) h3
    · exact absurd (Or.inr h) h3
    · exact absurd (Or.inl h) h4
    · exact absurd (Or.inr h) h4

/-- Helper: a raising model-construction / solve pipeline (no result)
forces the `1e6` sentinel (`auto_optimizer.py` lines 94-95). -/
theorem objective_of_failure (recovery_target purity_target fp pp af : ℚ)
    (fixed : FixedParams) (theta y : ℚ)
    (hnone : (MembraneSeparation.init fixed.feed_composition fp pp fixed.temperature
        fixed.co2_permeance_gpu fixed.selectivity).bind
        (fun m => solve_single_stage m fixed.feed_flow theta y) = none) :
    objective_function recovery_target purity_target fp pp af fixed theta y = 10 ^ 6 := by
  unfold objective_function
  split_ifs
  · rfl
  · rfl
  · rfl
  · rfl
  · rcases hm : MembraneSeparation.init fixed.feed_composition fp pp
        fixed.temperature fixed.co2_permeance_gpu fixed.selectivity with _ | m
    · rfl
    · rw [hm] at hnone
      have h2 : solve_single_stage m fixed.feed_flow theta y = none := hnone
      dsimp only
      rw [h2]

/-- Claim C5: `objective_function` returns exactly `1e6` whenever
`permeate_pressure ≥ feed_pressure`, or `feed_pressure` leaves `[1,20]`, or
`permeate_pressure` leaves `[0.05,5]`, or `area_factor` leaves `[0.1,10]`,
or the model construction / solve pipeline raises (returns no result).
Since the statement holds for every `fixed` and every root-finder output
`theta, y`, the inverted-pressure sentinel in particular is independent of
the membrane model — the model is never consulted (in the code the
`permeate_pressure >= feed_pressure` check precedes the
`MembraneSeparation(...)` construction). -/
theorem c5_infeasibility_sentinel (recovery_target purity_target fp pp af : ℚ)
    (fixed : FixedParams) (theta y : ℚ)
    (h : pp ≥ fp ∨ fp < 1 ∨ fp > 20 ∨ pp < 1 / 20 ∨ pp > 5 ∨ af < 1 / 10 ∨ af > 10 ∨
      (MembraneSeparation.init fixed.feed_composition fp pp fixed.temperature
        fixed.co2_permeance_gpu fixed.selectivity).bind
        (fun m => solve_single_stage m fixed.feed_flow theta y) = none) :
    objective_function recovery_target purity_target fp pp af fixed theta y = 10 ^ 6 := by
  rcases h with h | h | h | h | h | h | h | h
  · exact objective_of_guard recovery_target purity_target fp pp af fixed theta y (Or.inl h)
  · exact objective_of_guard recovery_target purity_target fp pp af fixed theta y
      (Or.inr (Or.inl h))
  · exact objective_of_guard recovery_target purity_target fp pp af fixed theta y
      (Or.inr (Or.inr (Or.inl h)))
  · exact objective_of_guard recovery_target purity_target fp pp af fixed theta y
      (Or.inr (Or.inr (Or.inr (Or.inl h))))
  · exact objective_of_guard recovery_target purity_target fp pp af fixed theta y
      (Or.inr (Or.inr (Or.inr (Or.inr (Or.inl h)))))
  · exact objective_of_guard recovery_target purity_target fp pp af fixed theta y
      (Or.inr (Or.inr (Or.inr (Or.inr (Or.inr (Or.inl h))))))
  · exact objective_of_guard recovery_target purity_target fp pp af fixed theta y
      (Or.inr (Or.inr (Or.inr (Or.inr (Or.inr (Or.inr h))))))
  · exact objective_of_failure recovery_target purity_target fp pp af fixed theta y h

/-- Witness for `c5_infeasibility_sentinel`: the spec scenario
`permeate_pressure = 4`, `feed_pressure = 3` (inverted) yields exactly
`1e6`. -/
theorem c5_sentinel_witness :
    objective_function (4 / 5) (4 / 5) 3 4 1 fixedW 0 0 = 10 ^ 6 :=
  c5_infeasibility_sentinel (4 / 5) (4 / 5) 3 4 1 fixedW 0 0 (Or.inl (by norm_num))

/-- Claim C7: `solve_single_stage` never propagates an exception.  When the
returned iterate fails the convergence check (`convergence_warning` true)
the function still returns the iterate's results, provided none of the
post-solve divisions has a zero denominator; and when the solve pipeline
does raise (returns no result), `objective_function` converts it into the
`1e6` penalty instead of re-raising. -/
theorem c7_failure_semantics (m : MembraneSeparation) (F theta y : ℚ)
    (recovery_target purity_target fp pp af : ℚ) (fixed : FixedParams) (theta2 y2 : ℚ)
    (_hw : convergence_warning m F theta y = true)
    (hR : F - theta * F ≠ 0) (hz : F * m.z ≠ 0)
    (hd : m.P_CO2 * ((F * m.z - theta * F * y) / (F - theta * F) * m.P_f - y * m.P_p) ≠ 0)
    (hnone : (MembraneSeparation.init fixed.feed_composition fp pp fixed.temperature
        fixed.co2_permeance_gpu fixed.selectivity).bind
        (fun mm => solve_single_stage mm fixed.feed_flow theta2 y2) = none) :
    (solve_single_stage m F theta y).isSome = true ∧
    objective_function recovery_target purity_target fp pp af fixed theta2 y2 = 10 ^ 6 := by
  constructor
  · unfold solve_single_stage
    dsimp only
    rw [if_neg hR, if_neg hz, if_neg hd]
    rfl
  · exact objective_of_failure recovery_target purity_target fp pp af fixed theta2 y2 hnone

/-- Witness for `c7_failure_semantics`: at the base scenario the iterate
`theta = 3/10`, `y = 1/2` has residual sum of squares above `1e-6`
(warning) yet a result is returned; and a strategy oracle with stage-cut
exactly 1 makes the solver return no result, which the penalty function
maps to `1e6`. -/
theorem c7_failure_witness :
    (solve_single_stage mGood 1 (3 / 10) (1 / 2)).isSome = true ∧
    objective_function (4 / 5) (4 / 5) 3 (1 / 5) 1 fixedW 1 (1 / 2) = 10 ^ 6 := by
  refine c7_failure_semantics mGood 1 (3 / 10) (1 / 2) (4 / 5) (4 / 5) 3 (1 / 5) 1
    fixedW 1 (1 / 2) ?_ (by norm_num) (by norm_num [mGood]) ?_ ?_
  · norm_num [convergence_warning, equations, mGood, GPU_TO_SI, abs_of_nonneg]
  · norm_num [mGood, GPU_TO_SI]
  · norm_num [MembraneSeparation.init, solve_single_stage, fixedW, GPU_TO_SI]

/-- Claim C9 (amended): the constructor performs no validation of
selectivity.  Selectivity zero raises an uncaught `ZeroDivisionError` (not
an InvalidParameter error), and every nonzero selectivity — negative
values included — silently constructs the model with
`P_N2 = P_CO2 / selectivity`. -/
theorem c9_no_validation (fc fp pp temp perm sel : ℚ) :
    (sel = 0 → MembraneSeparation.init fc fp pp temp perm sel = none) ∧
    (sel ≠ 0 →
      (MembraneSeparation.init fc fp pp temp perm sel).map MembraneSeparation.P_N2 =
        some (perm * GPU_TO_SI / sel)) := by
  constructor
  · intro h
    unfold MembraneSeparation.init
    rw [if_pos h]
  · intro h
    unfold MembraneSeparation.init
    rw [if_neg h]
    rfl

/-- Witness for `c9_no_validation`: selectivity `-5` constructs silently
with `P_N2 = 800*GPU_TO_SI/(-5)`, and selectivity `0` is the
division-by-zero failure. -/
theorem c9_no_validation_witness :
    (MembraneSeparation.init (3 / 20) 3 (1 / 5) 298 800 (-5)).map
      MembraneSeparation.P_N2 = some (800 * GPU_TO_SI / (-5)) ∧
    MembraneSeparation.init (3 / 20) 3 (1 / 5) 298 0 0 = none :=
  ⟨(c9_no_validation (3 / 20) 3 (1 / 5) 298 800 (-5)).2 (by norm_num),
   (c9_no_validation (3 / 20) 3 (1 / 5) 298 0 0).1 rfl⟩

/-- Counterexample to claim C9 as stated: constructing the model with the
non-positive selectivity `-5` does not fail at all — the constructor
succeeds and silently stores the negative N2 permeance
`800*GPU_TO_SI/(-5) < 0`. -/
theorem c9_invalid_param_cex :
    (MembraneSeparation.init (3 / 20) 3 (1 / 5) 298 800 (-5)).isSome = true ∧
    (MembraneSeparation.init (3 / 20) 3 (1 / 5) 298 800 (-5)).map
      MembraneSeparation.P_N2 = some (800 * GPU_TO_SI / (-5)) ∧
    800 * GPU_TO_SI / (-5) < 0 := by
  refine ⟨?_, ?_, ?_⟩
  · norm_num [MembraneSeparation.init]
  · norm_num [MembraneSeparation.init]
  · norm_num [GPU_TO_SI]

/-- Claim C2: `guaranteed_solution` coincides with the escalation ladder
exactly as the claim words it (`escalation_ladder_claim`): strictly
sequential strategies, terminal on the first success, with the stated
parameter overrides, the 0.78/0.78 relaxation of strategy 7 applied to the
strategy-6 solution, and the unconditionally forced strategy-8 fallback. -/
theorem c2_escalation_ladder (powq : ℚ → ℚ → ℚ) (oracle : ℕ → CallOracle)
    (recovery_target purity_target : ℚ) (base : BaseParams) :
    guaranteed_solution powq oracle recovery_target purity_target base =
      escalation_ladder_claim powq oracle recovery_target purity_target base := by
  unfold guaranteed_solution escalation_ladder_claim
  simp only [strat2_params, strat3_params, strat4_params, strat5_params, strat6_params,
    working_params]
  generalize fopt powq oracle recovery_target purity_target 0 base = o0
  generalize fopt powq oracle recovery_target purity_target 1
    { base with selectivity := min 100 (base.selectivity * (3 / 2)) } = o1
  generalize fopt powq oracle recovery_target purity_target 2
    { base with
        feed_composition := min (1 / 2) (base.feed_composition * (3 / 2))
        selectivity := min 100 (base.selectivity * (13 / 10)) } = o2
  generalize fopt powq oracle recovery_target purity_target 3
    { base with
        selectivity := 150
        co2_permeance_gpu := base.co2_permeance_gpu * (7 / 10)
        feed_composition := min (2 / 5) (base.feed_composition * (13 / 10)) } = o3
  generalize fopt powq oracle recovery_target purity_target 4
    { base with
        temperature := 308
        selectivity := 120
        feed_composition := min (1 / 2) (base.feed_composition * 2) } = o4
  generalize fopt powq oracle recovery_target purity_target 5
    { base with
        selectivity := 200
        co2_permeance_gpu := 1200
        feed_composition := 3 / 10
        temperature := 298 } = o5
  generalize fopt powq oracle recovery_target purity_target 6
    { feed_flow := 1
      feed_composition := 3 / 10
      temperature := 298
      co2_permeance_gpu := 1500
      selectivity := 250
      electricity_cost := 7 / 100
      membrane_cost_per_m2 := 50 } = o6
  rcases o0 with _ | s1
  · rfl
  simp only [Option.some_bind]
  cases s1.meets_target with
  | true => rfl
  | false =>
    simp only [Bool.false_eq_true, if_false]
    rcases o1 with _ | s2
    · rfl
    simp only [Option.some_bind]
    cases s2.meets_target with
    | true => rfl
    | false =>
      simp only [Bool.false_eq_true, if_false]
      rcases o2 with _ | s3
      · rfl
      simp only [Option.some_bind]
      cases s3.meets_target with
      | true => rfl
      | false =>
        simp only [Bool.false_eq_true, if_false]
        rcases o3 with _ | s4
        · rfl
        simp only [Option.some_bind]
        cases s4.meets_target with
        | true => rfl
        | false =>
          simp only [Bool.false_eq_true, if_false]
          rcases o4 with _ | s5
          · rfl
          simp only [Option.some_bind]
          cases s5.meets_target with
          | true => rfl
          | false =>
            simp only [Bool.false_eq_true, if_false]
            rcases o5 with _ | s6
            · rfl
            simp only [Option.some_bind]
            cases s6.meets_target with
            | true => rfl
            | false =>
              simp only [Bool.false_eq_true, if_false]
              split_ifs
              · rfl
              rcases o6 with _ | s8
              · rfl
              simp only [Option.some_bind]

/-- Helper: the value of `objective_function` on a feasible candidate whose
solve succeeded, exactly as computed by `auto_optimizer.py` lines 84-92. -/
theorem objective_success_eq (recovery_target purity_target fp pp af : ℚ)
    (fixed : FixedParams) (theta y : ℚ) (m : MembraneSeparation) (r : StageResult)
    (hpp : ¬ pp ≥ fp) (hfp : ¬ (fp < 1 ∨ fp > 20)) (hpr : ¬ (pp < 1 / 20 ∨ pp > 5))
    (haf : ¬ (af < 1 / 10 ∨ af > 10))
    (hm : MembraneSeparation.init fixed.feed_composition fp pp fixed.temperature
      fixed.co2_permeance_gpu fixed.selectivity = some m)
    (hr : solve_single_stage m fixed.feed_flow theta y = some r) :
    objective_function recovery_target purity_target fp pp af fixed theta y =
      (max 0 (recovery_target - r.co2_recovery)) ^ 2 * 100 +
      (max 0 (purity_target - r.permeate_co2)) ^ 2 * 100 +
      (fp / 10 * (1 / 10) + af / 5 * (1 / 10)) := by
  unfold objective_function
  rw [if_neg hpp, if_neg hfp, if_neg hpr, if_neg haf, hm]
  dsimp only
  rw [hr]

/-- Claim C8: the `area_factor` decision variable never feeds back into the
stage solver.  Two candidates that differ only in `area_factor` (both
inside `[0.1, 10]`, with the same feasible pressures and a succeeding
solve) produce the very same solver result — `solve_single_stage` does not
take `area_factor` at all — and their penalties differ exactly by the cost
term `0.1*(af1 - af2)/5`; likewise `find_optimal_conditions` never reads
the optimized `area_factor` component `x2`, so two optimizer results equal
in `x0`, `x1` and `fun` yield identical solution records. -/
theorem c8_area_factor_inert (recovery_target purity_target fp pp af1 af2 : ℚ)
    (fixed : FixedParams) (theta y : ℚ) (powq : ℚ → ℚ → ℚ) (base : BaseParams)
    (opt1 opt2 : OptResult) (theta2 y2 : ℚ)
    (hpp : ¬ pp ≥ fp) (hfp : ¬ (fp < 1 ∨ fp > 20)) (hpr : ¬ (pp < 1 / 20 ∨ pp > 5))
    (ha1 : ¬ (af1 < 1 / 10 ∨ af1 > 10)) (ha2 : ¬ (af2 < 1 / 10 ∨ af2 > 10))
    (hsol : (MembraneSeparation.init fixed.feed_composition fp pp fixed.temperature
        fixed.co2_permeance_gpu fixed.selectivity).bind
        (fun m => solve_single_stage m fixed.feed_flow theta y) ≠ none)
    (hopt : opt1.x0 = opt2.x0 ∧ opt1.x1 = opt2.x1 ∧ opt1.f = opt2.f) :
    objective_function recovery_target purity_target fp pp af1 fixed theta y -
      objective_function recovery_target purity_target fp pp af2 fixed theta y =
      1 / 10 * (af1 - af2) / 5 ∧
    find_optimal_conditions powq recovery_target purity_target base opt1 theta2 y2 =
      find_optimal_conditions powq recovery_target purity_target base opt2 theta2 y2 := by
  constructor
  · rcases hm : MembraneSeparation.init fixed.feed_composition fp pp fixed.temperature
        fixed.co2_permeance_gpu fixed.selectivity with _ | m
    · rw [hm] at hsol
      exact absurd rfl hsol
    · rw [hm] at hsol
      have hsol2 : solve_single_stage m fixed.feed_flow theta y ≠ none := hsol
      rcases hs : solve_single_stage m fixed.feed_flow theta y with _ | r
      · exact absurd hs hsol2
      · rw [objective_success_eq recovery_target purity_target fp pp af1 fixed theta y
            m r hpp hfp hpr ha1 hm hs,
          objective_success_eq recovery_target purity_target fp pp af2 fixed theta y
            m r hpp hfp hpr ha2 hm hs]
        ring
  · unfold find_optimal_conditions
    rw [hopt.1, hopt.2.1, hopt.2.2]

/-- Witness for `c8_area_factor_inert`: the base scenario candidates with
`area_factor` 1 versus 2 give penalties differing by `-1/50`, and two
optimizer results differing only in the `x2` component give the same
solution record. -/
theorem c8_area_factor_witness :
    objective_function (4 / 5) (4 / 5) 3 (1 / 5) 1 fixedW (3 / 20) (9 / 10) -
      objective_function (4 / 5) (4 / 5) 3 (1 / 5) 2 fixedW (3 / 20) (9 / 10) =
      1 / 10 * (1 - 2) / 5 ∧
    find_optimal_conditions powqW (4 / 5) (4 / 5) baseW optW (3 / 20) (9 / 10) =
      find_optimal_conditions powqW (4 / 5) (4 / 5) baseW { optW with x2 := 7 }
        (3 / 20) (9 / 10) := by
  refine c8_area_factor_inert (4 / 5) (4 / 5) 3 (1 / 5) 1 2 fixedW (3 / 20) (9 / 10)
    powqW baseW optW { optW with x2 := 7 } (3 / 20) (9 / 10)
    (by norm_num) (by norm_num) (by norm_num) (by norm_num) (by norm_num) ?_ ⟨rfl, rfl, rfl⟩
  intro hcon
  norm_num [MembraneSeparation.init, solve_single_stage, fixedW, GPU_TO_SI] at hcon
  exact absurd hcon (Option.some_ne_none _)

/-- Claim C10: the `de_bounds` box actually handed to the optimizer caps
`feed_pressure` at 15 (not the documented 20) and `permeate_pressure` at 2
(not the documented 5); for any optimizer result inside the box, the
solution record returned by `find_optimal_conditions` therefore has
`feed_pressure ≤ 15 < 20` and `permeate_pressure ≤ 2 < 5`. -/
theorem c10_de_bounds (powq : ℚ → ℚ → ℚ) (recovery_target purity_target : ℚ)
    (base : BaseParams) (opt : OptResult) (theta y : ℚ) (s : Solution)
    (hx0 : (de_bounds.getD 0 (0, 0)).1 ≤ opt.x0 ∧ opt.x0 ≤ (de_bounds.getD 0 (0, 0)).2)
    (hx1 : (de_bounds.getD 1 (0, 0)).1 ≤ opt.x1 ∧ opt.x1 ≤ (de_bounds.getD 1 (0, 0)).2)
    (hs : find_optimal_conditions powq recovery_target purity_target base opt theta y =
      some s) :
    s.feed_pressure ≤ (de_bounds.getD 0 (0, 0)).2 ∧ (de_bounds.getD 0 (0, 0)).2 < 20 ∧
    s.permeate_pressure ≤ (de_bounds.getD 1 (0, 0)).2 ∧ (de_bounds.getD 1 (0, 0)).2 < 5 := by
  have hfield : s.feed_pressure = opt.x0 ∧ s.permeate_pressure = opt.x1 := by
    unfold find_optimal_conditions at hs
    dsimp only at hs
    rcases hm : MembraneSeparation.init base.feed_composition opt.x0 opt.x1
        base.temperature base.co2_permeance_gpu base.selectivity with _ | m
    · rw [hm] at hs
      exact absurd hs (by simp)
    · rw [hm] at hs
      dsimp only at hs
      rcases hsv : solve_single_stage m base.feed_flow theta y with _ | r
      · rw [hsv] at hs
        exact absurd hs (by simp)
      · rw [hsv] at hs
        dsimp only at hs
        split_ifs at hs <;>
          (rw [Option.some.injEq] at hs
           rw [← hs]
           exact ⟨rfl, rfl⟩)
  refine ⟨?_, ?_, ?_, ?_⟩
  · rw [hfield.1]
    simpa [de_bounds] using hx0.2
  · norm_num [de_bounds]
  · rw [hfield.2]
    simpa [de_bounds] using hx1.2
  · norm_num [de_bounds]

/-- Witness for `c10_de_bounds` at the base scenario optimizer result
`optW = (3, 1/5, 1)`. -/
theorem c10_de_bounds_witness :
    ((find_optimal_conditions powqW (4 / 5) (4 / 5) baseW optW (3 / 20) (9 / 10)).map
      (fun s => decide (s.feed_pressure ≤ 15 ∧ s.permeate_pressure ≤ 2))) = some true := by
  rcases hs : find_optimal_conditions powqW (4 / 5) (4 / 5) baseW optW (3 / 20) (9 / 10)
    with _ | s
  · norm_num [find_optimal_conditions, baseW, optW, powqW, MembraneSeparation.init,
      solve_single_stage, calculate_compression_energy, calculate_annual_opex_total,
      GPU_TO_SI] at hs
    exact absurd hs (Option.some_ne_none _)
  · have h := c10_de_bounds powqW (4 / 5) (4 / 5) baseW optW (3 / 20) (9 / 10) s
      (by norm_num [de_bounds, optW]) (by norm_num [de_bounds, optW]) hs
    simp only [Option.map_some', Option.some.injEq, decide_eq_true_eq]
    refine ⟨le_trans h.1 ?_, le_trans h.2.2.1 ?_⟩
    · norm_num [de_bounds]
    · norm_num [de_bounds]

end MembraneSep
